import Mathlib

/-!
Verification of the UUID-Generator repository: a shallow embedding of the
Python binding layer (`src/bindings/python/uuid_generator.py`) together with
models of the four exported core library functions, which the bindings call
through FFI. Bytes are modelled as natural numbers below 256, byte buffers
as `List Nat`, raised Python exceptions as the `Except` error channel.
-/

namespace UuidGen

/-- Python exception classes that the binding layer can raise.
`valueError` is Python's builtin `ValueError`; the others are the
module's `UuidError` subclasses. -/
inductive PyErr where
  | entropyError
  | invalidParameterError
  | bufferTooSmallError
  | unknownError
  | valueError
  deriving DecidableEq, Repr

/-- The `ERROR_CODES` dictionary: `{1: EntropyError, 2: InvalidParameterError,
3: BufferTooSmallError, 99: UnknownError}`, as a partial map from status code
to exception class (`none` models a missing key). -/
def ERROR_CODES (code : Int) : Option PyErr :=
  if code = 1 then some .entropyError
  else if code = 2 then some .invalidParameterError
  else if code = 3 then some .bufferTooSmallError
  else if code = 99 then some .unknownError
  else none

/-- `UuidGenerator._check_error`: `if result != 0: raise
ERROR_CODES.get(result, UnknownError)(...)`. `some e` models raising `e`,
`none` models returning normally. -/
def check_error (result : Int) : Option PyErr :=
  if result ≠ 0 then some ((ERROR_CODES result).getD .unknownError) else none

/-- Modelled from the spec: the core library's version/variant imposition
(the Rust implementation is not in the repository source). The Generate
codec step overwrites byte 6's high nibble with `0100` (so the byte becomes
`0x40 + low nibble`) and byte 8's top two bits with `10` (so the byte
becomes `0x80 + low six bits`), leaving all other bits untouched. -/
def imposeVersionVariant (b : List Nat) : List Nat :=
  (b.set 6 (64 + b.getD 6 0 % 16)).set 8 (128 + b.getD 8 0 % 64)

/-- Modelled from the spec: the exported `uuid_generate_v4(out_buffer)`.
The entropy outcome is passed as a parameter: `.error ()` is an entropy
failure (status code 1, output unspecified, modelled as zeros), `.ok e`
supplies the 16 random bytes, which get the version/variant bits imposed
(status code 0). -/
def uuid_generate_v4 (entropy : Except Unit (List Nat)) : Int × List Nat :=
  match entropy with
  | .error _ => (1, List.replicate 16 0)
  | .ok e => (0, imposeVersionVariant e)

/-- Modelled from the spec: `uuid_get_info(in, out_version, out_variant)`.
The version is the high nibble of byte 6 and the variant the top two bits
of byte 8 (value 2 denotes the RFC-4122 family). Returns
(status, version, variant). -/
def uuid_get_info (b : List Nat) : Int × Nat × Nat :=
  (0, b.getD 6 0 / 16, b.getD 8 0 / 64)

/-- Modelled from the spec: `uuid_compare(a, b, out_equal)` writes 1 when
all 16 bytes are pairwise equal and 0 otherwise, with status code 0.
Returns (status, out_equal). -/
def uuid_compare (a b : List Nat) : Int × Nat :=
  (0, if a = b then 1 else 0)

/-- The lowercase hexadecimal digit for a nibble: code 48 is the digit
zero, code 97 the letter a. -/
def hexDigit (n : Nat) : Char :=
  if n < 10 then Char.ofNat (48 + n) else Char.ofNat (87 + n)

/-- The two lowercase hexadecimal digits of one byte, high nibble first. -/
def hexPair (n : Nat) : List Char := [hexDigit (n / 16), hexDigit (n % 16)]

/-- The hexadecimal rendering of a group of bytes. -/
def hexGroup (l : List Nat) : List Char := (l.map hexPair).flatten

/-- Modelled from the spec: `uuid_to_string(in, out_string, out_capacity)`.
Fails with status 3 (`BufferTooSmall`), writing nothing, when the stated
capacity is below 37 (36 characters plus terminator); otherwise writes the
canonical 8-4-4-4-12 lowercase hyphenated hexadecimal string with status 0.
Returns (status, written characters). -/
def uuid_to_string (b : List Nat) (cap : Nat) : Int × List Char :=
  if cap < 37 then (3, [])
  else (0, hexGroup (b.take 4) ++ '-' :: hexGroup ((b.drop 4).take 2) ++
    '-' :: hexGroup ((b.drop 6).take 2) ++ '-' :: hexGroup ((b.drop 8).take 2) ++
    '-' :: hexGroup (b.drop 10))

/-- A `UuidGenerator` instance. The loaded library handle is stateless, so
an instance is distinguished only by its identity. -/
structure UuidGenerator where
  id : Nat
  deriving DecidableEq, Repr

/-- A `Uuid` object: its `_bytes` attribute (exposed through the `bytes`
property) and its `_generator` attribute. -/
structure Uuid where
  bytes : List Nat
  gen : UuidGenerator
  deriving DecidableEq, Repr

/-- `Uuid.__init__`: raises `ValueError` unless `uuid_bytes` is exactly
16 bytes, then stores the bytes and the generator unchanged. -/
def Uuid.init (uuid_bytes : List Nat) (generator : UuidGenerator) : Except PyErr Uuid :=
  if uuid_bytes.length ≠ 16 then .error .valueError
  else .ok ⟨uuid_bytes, generator⟩

/-- `UuidGenerator.from_bytes`: raises `ValueError` unless the input is
exactly 16 bytes, then constructs `Uuid(uuid_bytes, self)`. -/
def UuidGenerator.from_bytes (self : UuidGenerator) (uuid_bytes : List Nat) :
    Except PyErr Uuid :=
  if uuid_bytes.length ≠ 16 then .error .valueError
  else Uuid.init uuid_bytes self

/-- `UuidGenerator.generate`: calls `uuid_generate_v4`, checks the status
code with `_check_error`, and wraps the 16 output bytes in a `Uuid`. -/
def UuidGenerator.generate (self : UuidGenerator) (entropy : Except Unit (List Nat)) :
    Except PyErr Uuid :=
  let r := uuid_generate_v4 entropy
  match check_error r.1 with
  | some e => .error e
  | none => Uuid.init r.2 self

/-- `Uuid.__str__`: calls `uuid_to_string` with a 37-byte buffer
(`ctypes.create_string_buffer(37)`), checks the status code, and decodes
the buffer contents. -/
def Uuid.str (self : Uuid) : Except PyErr (List Char) :=
  let r := uuid_to_string self.bytes 37
  match check_error r.1 with
  | some e => .error e
  | none => .ok r.2

/-- A Python value handed to `Uuid.__eq__`: either a `Uuid` instance or any
non-`Uuid` object (tagged by a natural number). -/
inductive PyObj where
  | uuidObj (u : Uuid)
  | other (v : Nat)
  deriving DecidableEq, Repr

/-- `Uuid.__eq__`: returns `False` at once when `other` is not a `Uuid`
instance; otherwise calls `uuid_compare` on the two byte buffers, checks
the status code, and converts the output byte to a boolean. The second
component counts the `uuid_compare` library invocations performed. -/
def Uuid.eq (self : Uuid) (o : PyObj) : Except PyErr (Bool × Nat) :=
  match o with
  | .other _ => .ok (false, 0)
  | .uuidObj u =>
    let r := uuid_compare self.bytes u.bytes
    match check_error r.1 with
    | some e => .error e
    | none => .ok (decide (r.2 ≠ 0), 1)

/-- `Uuid.__hash__` is `hash(self._bytes)`: the Python builtin byte-string
hash, modelled as an arbitrary function `pyHash` of the raw bytes. -/
def Uuid.hash (pyHash : List Nat → Int) (self : Uuid) : Int :=
  pyHash self.bytes

/-- `Uuid.version`: calls `uuid_get_info`, checks the status code, and
returns the version output byte. -/
def Uuid.version (self : Uuid) : Except PyErr Nat :=
  let r := uuid_get_info self.bytes
  match check_error r.1 with
  | some e => .error e
  | none => .ok r.2.1

/-- `Uuid.variant`: calls `uuid_get_info`, checks the status code, and
returns the variant output byte. -/
def Uuid.variant (self : Uuid) : Except PyErr Nat :=
  let r := uuid_get_info self.bytes
  match check_error r.1 with
  | some e => .error e
  | none => .ok r.2.2

/-- `get_generator`: the lazily-initialized module-global default
generator, as explicit state passing. The input is the current value of
`_default_generator`, `fresh` is the instance `UuidGenerator()` would
construct; the result is the returned generator and the new global. -/
def get_generator (g : Option UuidGenerator) (fresh : UuidGenerator) :
    UuidGenerator × Option UuidGenerator :=
  match g with
  | none => (fresh, some fresh)
  | some g0 => (g0, some g0)

/-- `uuid4`: `get_generator().generate()` on the current global state. -/
def uuid4 (g : Option UuidGenerator) (fresh : UuidGenerator)
    (entropy : Except Unit (List Nat)) : Except PyErr Uuid × Option UuidGenerator :=
  let r := get_generator g fresh
  (r.1.generate entropy, r.2)

/-- Whether a character is a lowercase hexadecimal digit. -/
def isLowerHex (c : Char) : Bool :=
  (48 ≤ c.toNat && c.toNat ≤ 57) || (97 ≤ c.toNat && c.toNat ≤ 102)

/-! ### A two-thread interleaving model of `get_generator`

`get_generator` performs an unsynchronized check-then-act on the module
global `_default_generator`; under the CPython execution model another
thread may run between the `is None` check, the assignment, and the
`return` re-read. Generators are identified by the order of construction. -/

/-- The shared state: the module global `_default_generator`, the identity
the next `UuidGenerator()` construction would get, and how many
constructions have happened. -/
structure GenState where
  globalGen : Option Nat
  nextId : Nat
  created : Nat
  deriving DecidableEq, Repr

/-- One thread executing `get_generator`: its program counter and, once
finished, its return value. -/
structure ThreadState where
  pc : Nat
  ret : Option Nat
  deriving DecidableEq, Repr

/-- One interleaved step of `get_generator`'s body for one thread: pc 0 is
the `_default_generator is None` test, pc 1 the construction and
assignment `_default_generator = UuidGenerator()`, pc 2 the
`return _default_generator` re-read, pc 3 done. -/
def threadStep (s : GenState) (t : ThreadState) : GenState × ThreadState :=
  match t.pc with
  | 0 => if s.globalGen = none then (s, ⟨1, t.ret⟩) else (s, ⟨2, t.ret⟩)
  | 1 => (⟨some s.nextId, s.nextId + 1, s.created + 1⟩, ⟨2, t.ret⟩)
  | 2 => (s, ⟨3, s.globalGen⟩)
  | _ => (s, t)

/-- Two threads concurrently calling `get_generator` on shared state. -/
structure RaceState where
  shared : GenState
  t1 : ThreadState
  t2 : ThreadState
  deriving DecidableEq, Repr

/-- Let the scheduled thread (`true` = thread 1) take one step. -/
def raceStep (s : RaceState) (who : Bool) : RaceState :=
  if who then
    let r := threadStep s.shared s.t1
    ⟨r.1, r.2, s.t2⟩
  else
    let r := threadStep s.shared s.t2
    ⟨r.1, s.t1, r.2⟩

/-- Run both threads from the uninitialized global under a schedule. -/
def raceRun (sched : List Bool) : RaceState :=
  sched.foldl raceStep ⟨⟨none, 0, 0⟩, ⟨0, none⟩, ⟨0, none⟩⟩

/-! ## Helper lemmas -/

lemma getD_set_self (l : List Nat) (i x : Nat) (h : i < l.length) :
    (l.set i x).getD i 0 = x := by
  rw [List.getD_eq_getElem?_getD, List.getElem?_set_eq_of_lt x h]
  rfl

lemma getD_set_ne (l : List Nat) {i j : Nat} (x : Nat) (h : i ≠ j) :
    (l.set i x).getD j 0 = l.getD j 0 := by
  rw [List.getD_eq_getElem?_getD, List.getElem?_set_ne h,
    ← List.getD_eq_getElem?_getD]

lemma generate_ok (g : UuidGenerator) (e : List Nat) (hlen : e.length = 16) :
    g.generate (Except.ok e) = Except.ok ⟨imposeVersionVariant e, g⟩ := by
  simp [UuidGenerator.generate, uuid_generate_v4, check_error, Uuid.init,
    imposeVersionVariant, hlen]

lemma impose_version (e : List Nat) (g : UuidGenerator) (hlen : e.length = 16) :
    Uuid.version ⟨imposeVersionVariant e, g⟩ = Except.ok 4 := by
  have h6 : (imposeVersionVariant e).getD 6 0 = 64 + e.getD 6 0 % 16 := by
    unfold imposeVersionVariant
    rw [getD_set_ne _ _ (by omega), getD_set_self _ _ _ (by omega)]
  rw [List.getD_eq_getElem?_getD] at h6
  simp [Uuid.version, uuid_get_info, check_error, List.getD_eq_getElem?_getD, h6]
  omega

lemma impose_variant (e : List Nat) (g : UuidGenerator) (hlen : e.length = 16) :
    Uuid.variant ⟨imposeVersionVariant e, g⟩ = Except.ok 2 := by
  have h8 : (imposeVersionVariant e).getD 8 0 = 128 + e.getD 8 0 % 64 := by
    unfold imposeVersionVariant
    rw [getD_set_self _ _ _ (by simp [hlen])]
  rw [List.getD_eq_getElem?_getD] at h8
  simp [Uuid.variant, uuid_get_info, check_error, List.getD_eq_getElem?_getD, h8]
  omega

lemma hexGroup_cons (a : Nat) (t : List Nat) :
    hexGroup (a :: t) = hexPair a ++ hexGroup t := rfl

lemma hexGroup_length (l : List Nat) : (hexGroup l).length = 2 * l.length := by
  induction l with
  | nil => rfl
  | cons a t ih =>
    rw [hexGroup_cons, List.length_append, ih]
    simp [hexPair]
    omega

lemma hexDigit_hex (n : Nat) (h : n < 16) : isLowerHex (hexDigit n) = true := by
  have hfin : ∀ m : Fin 16, isLowerHex (hexDigit m.val) = true := by decide
  exact hfin ⟨n, h⟩

lemma hexGroup_all (l : List Nat) (h : ∀ x ∈ l, x < 256) :
    (hexGroup l).all isLowerHex = true := by
  induction l with
  | nil => rfl
  | cons a t ih =>
    have ha : a < 256 := h a (by simp)
    rw [hexGroup_cons, List.all_append]
    have h1 : isLowerHex (hexDigit (a / 16)) = true := hexDigit_hex _ (by omega)
    have h2 : isLowerHex (hexDigit (a % 16)) = true := hexDigit_hex _ (by omega)
    have h3 : (hexGroup t).all isLowerHex = true :=
      ih (fun x hx => h x (by simp [hx]))
    simp [hexPair, h1, h2, h3]

/-! ## Claim theorems -/

/-- C1: every identifier successfully produced by `UuidGenerator.generate`
(and by the `uuid4` convenience function) reads back version 4 and
variant 2 through `Uuid.version` and `Uuid.variant`. -/
theorem C1_generated_version_variant (g : UuidGenerator)
    (gs : Option UuidGenerator) (fresh : UuidGenerator) (e : List Nat)
    (hlen : e.length = 16) :
    (∃ u, g.generate (Except.ok e) = Except.ok u ∧
      u.version = Except.ok 4 ∧ u.variant = Except.ok 2) ∧
    (∃ u, (uuid4 gs fresh (Except.ok e)).1 = Except.ok u ∧
      u.version = Except.ok 4 ∧ u.variant = Except.ok 2) :=
  ⟨⟨⟨imposeVersionVariant e, g⟩, generate_ok g e hlen,
      impose_version e g hlen, impose_variant e g hlen⟩,
    ⟨⟨imposeVersionVariant e, (get_generator gs fresh).1⟩,
      generate_ok (get_generator gs fresh).1 e hlen,
      impose_version e (get_generator gs fresh).1 hlen,
      impose_variant e (get_generator gs fresh).1 hlen⟩⟩

/-- C1 witness: a concrete run on all-zero entropy bytes. -/
theorem C1_generated_version_variant_witness :
    (List.replicate 16 0).length = 16 ∧
    ((∃ u, (UuidGenerator.mk 0).generate (Except.ok (List.replicate 16 0)) =
        Except.ok u ∧ u.version = Except.ok 4 ∧ u.variant = Except.ok 2) ∧
      (∃ u, (uuid4 none ⟨0⟩ (Except.ok (List.replicate 16 0))).1 =
        Except.ok u ∧ u.version = Except.ok 4 ∧ u.variant = Except.ok 2)) :=
  ⟨by decide, C1_generated_version_variant ⟨0⟩ none ⟨0⟩ _ (by decide)⟩

/-- C2: `uuid_to_string` fails with status 3 (`BufferTooSmall`), writing
nothing, whenever the stated capacity is below 37; and `Uuid.__str__`,
which calls it with a 37-byte buffer, succeeds on every 16-byte `Uuid`
with exactly 36 characters shaped 8-4-4-4-12: five hyphen-separated
groups of lowercase hexadecimal digits. -/
theorem C2_str_canonical (u : Uuid) (hlen : u.bytes.length = 16)
    (hbyte : ∀ x ∈ u.bytes, x < 256) :
    (∀ cap, cap < 37 → uuid_to_string u.bytes cap = (3, [])) ∧
    (∃ s, u.str = Except.ok s ∧ s.length = 36 ∧
      ∃ g1 g2 g3 g4 g5 : List Char,
        s = g1 ++ '-' :: g2 ++ '-' :: g3 ++ '-' :: g4 ++ '-' :: g5 ∧
        g1.length = 8 ∧ g2.length = 4 ∧ g3.length = 4 ∧ g4.length = 4 ∧
        g5.length = 12 ∧
        (g1 ++ g2 ++ g3 ++ g4 ++ g5).all isLowerHex = true) := by
  constructor
  · intro cap hcap
    simp [uuid_to_string, hcap]
  · have l1 : (hexGroup (u.bytes.take 4)).length = 8 := by
      rw [hexGroup_length, List.length_take]
      omega
    have l2 : (hexGroup ((u.bytes.drop 4).take 2)).length = 4 := by
      rw [hexGroup_length, List.length_take, List.length_drop]
      omega
    have l3 : (hexGroup ((u.bytes.drop 6).take 2)).length = 4 := by
      rw [hexGroup_length, List.length_take, List.length_drop]
      omega
    have l4 : (hexGroup ((u.bytes.drop 8).take 2)).length = 4 := by
      rw [hexGroup_length, List.length_take, List.length_drop]
      omega
    have l5 : (hexGroup (u.bytes.drop 10)).length = 12 := by
      rw [hexGroup_length, List.length_drop]
      omega
    have a1 : (hexGroup (u.bytes.take 4)).all isLowerHex = true :=
      hexGroup_all _ (fun x hx => hbyte x (List.take_subset _ _ hx))
    have a2 : (hexGroup ((u.bytes.drop 4).take 2)).all isLowerHex = true :=
      hexGroup_all _ (fun x hx =>
        hbyte x (List.drop_subset _ _ (List.take_subset _ _ hx)))
    have a3 : (hexGroup ((u.bytes.drop 6).take 2)).all isLowerHex = true :=
      hexGroup_all _ (fun x hx =>
        hbyte x (List.drop_subset _ _ (List.take_subset _ _ hx)))
    have a4 : (hexGroup ((u.bytes.drop 8).take 2)).all isLowerHex = true :=
      hexGroup_all _ (fun x hx =>
        hbyte x (List.drop_subset _ _ (List.take_subset _ _ hx)))
    have a5 : (hexGroup (u.bytes.drop 10)).all isLowerHex = true :=
      hexGroup_all _ (fun x hx => hbyte x (List.drop_subset _ _ hx))
    refine ⟨_, ?_, ?_, hexGroup (u.bytes.take 4),
      hexGroup ((u.bytes.drop 4).take 2), hexGroup ((u.bytes.drop 6).take 2),
      hexGroup ((u.bytes.drop 8).take 2), hexGroup (u.bytes.drop 10),
      rfl, l1, l2, l3, l4, l5, ?_⟩
    · simp [Uuid.str, uuid_to_string, check_error]
    · simp [List.length_append, l1, l2, l3, l4, l5]
    · simp [List.all_append, a1, a2, a3, a4, a5]

/-- C2 witness: a concrete all-zero 16-byte `Uuid`. -/
theorem C2_str_canonical_witness :
    (Uuid.bytes ⟨List.replicate 16 0, ⟨0⟩⟩).length = 16 ∧
    (∀ x ∈ Uuid.bytes ⟨List.replicate 16 0, ⟨0⟩⟩, x < 256) ∧
    ((∀ cap, cap < 37 →
        uuid_to_string (Uuid.bytes ⟨List.replicate 16 0, ⟨0⟩⟩) cap = (3, [])) ∧
      (∃ s, Uuid.str ⟨List.replicate 16 0, ⟨0⟩⟩ = Except.ok s ∧ s.length = 36 ∧
        ∃ g1 g2 g3 g4 g5 : List Char,
          s = g1 ++ '-' :: g2 ++ '-' :: g3 ++ '-' :: g4 ++ '-' :: g5 ∧
          g1.length = 8 ∧ g2.length = 4 ∧ g3.length = 4 ∧ g4.length = 4 ∧
          g5.length = 12 ∧
          (g1 ++ g2 ++ g3 ++ g4 ++ g5).all isLowerHex = true)) :=
  ⟨by decide, by decide,
    C2_str_canonical ⟨List.replicate 16 0, ⟨0⟩⟩ (by decide) (by decide)⟩

/-- C3: `from_bytes` on any 16-byte input succeeds and the resulting
`Uuid` re-reads exactly the same bytes, unmutated. -/
theorem C3_from_bytes_roundtrip (g : UuidGenerator) (b : List Nat)
    (h : b.length = 16) :
    ∃ u, g.from_bytes b = Except.ok u ∧ u.bytes = b := by
  refine ⟨⟨b, g⟩, ?_, rfl⟩
  simp [UuidGenerator.from_bytes, Uuid.init, h]

/-- C3 witness: round trip on a concrete 16-byte input. -/
theorem C3_from_bytes_roundtrip_witness :
    (List.replicate 16 7).length = 16 ∧
    ∃ u, (UuidGenerator.mk 0).from_bytes (List.replicate 16 7) =
      Except.ok u ∧ u.bytes = List.replicate 16 7 :=
  ⟨by decide, C3_from_bytes_roundtrip ⟨0⟩ _ (by decide)⟩

/-- C4: `Uuid.__eq__` between two `Uuid` values succeeds and reports true
exactly when the 16 byte buffers are equal; in particular it is reflexive,
and false whenever the buffers differ. -/
theorem C4_eq_exact_bytes (a b : Uuid) :
    (∃ r, a.eq (PyObj.uuidObj b) = Except.ok r ∧
      (r.1 = true ↔ a.bytes = b.bytes)) ∧
    a.eq (PyObj.uuidObj a) = Except.ok (true, 1) ∧
    (a.bytes ≠ b.bytes → a.eq (PyObj.uuidObj b) = Except.ok (false, 1)) := by
  by_cases h : a.bytes = b.bytes
  · refine ⟨⟨(true, 1), ?_, by simp [h]⟩, ?_, fun hc => absurd h hc⟩
    · simp [Uuid.eq, uuid_compare, check_error, h]
    · simp [Uuid.eq, uuid_compare, check_error]
  · refine ⟨⟨(false, 1), ?_, by simp [h]⟩, ?_, fun _ => ?_⟩
    · simp [Uuid.eq, uuid_compare, check_error, h]
    · simp [Uuid.eq, uuid_compare, check_error]
    · simp [Uuid.eq, uuid_compare, check_error, h]

/-- C4 witness: reflexivity and a one-byte difference on concrete values. -/
theorem C4_eq_exact_bytes_witness :
    Uuid.eq ⟨List.replicate 16 0, ⟨0⟩⟩ (PyObj.uuidObj ⟨List.replicate 16 0, ⟨0⟩⟩) =
      Except.ok (true, 1) ∧
    Uuid.eq ⟨List.replicate 16 0, ⟨0⟩⟩ (PyObj.uuidObj ⟨List.replicate 15 0 ++ [1], ⟨0⟩⟩) =
      Except.ok (false, 1) :=
  ⟨(C4_eq_exact_bytes ⟨List.replicate 16 0, ⟨0⟩⟩ ⟨List.replicate 16 0, ⟨0⟩⟩).2.1,
    (C4_eq_exact_bytes ⟨List.replicate 16 0, ⟨0⟩⟩
      ⟨List.replicate 15 0 ++ [1], ⟨0⟩⟩).2.2 (by decide)⟩

/-- C5 counterexample: a 15-byte input to `from_bytes` (and to the `Uuid`
constructor) raises Python's builtin `ValueError`, which is not the
module's `InvalidParameterError`. -/
theorem C5_wrong_length_counterexample :
    (UuidGenerator.mk 0).from_bytes (List.replicate 15 0) =
      Except.error PyErr.valueError ∧
    Uuid.init (List.replicate 15 0) (UuidGenerator.mk 0) =
      Except.error PyErr.valueError ∧
    PyErr.valueError ≠ PyErr.invalidParameterError :=
  ⟨rfl, rfl, by decide⟩

/-- C5 amended: every non-16-byte input to `from_bytes` and to the `Uuid`
constructor fails immediately, but with `ValueError`, not
`InvalidParameterError`. -/
theorem C5_wrong_length_raises_valueError (g : UuidGenerator) (b : List Nat)
    (h : b.length ≠ 16) :
    g.from_bytes b = Except.error PyErr.valueError ∧
    Uuid.init b g = Except.error PyErr.valueError := by
  simp [UuidGenerator.from_bytes, Uuid.init, h]

/-- C5 amended witness: a 17-byte input. -/
theorem C5_wrong_length_raises_valueError_witness :
    (List.replicate 17 0).length ≠ 16 ∧
    ((UuidGenerator.mk 0).from_bytes (List.replicate 17 0) =
        Except.error PyErr.valueError ∧
      Uuid.init (List.replicate 17 0) (UuidGenerator.mk 0) =
        Except.error PyErr.valueError) :=
  ⟨by decide, C5_wrong_length_raises_valueError ⟨0⟩ _ (by decide)⟩

/-- C6: `_check_error` raises nothing on 0, `EntropyError` on 1,
`InvalidParameterError` on 2, `BufferTooSmallError` on 3, `UnknownError`
on 99 and on every other nonzero status code. -/
theorem C6_check_error_taxonomy :
    check_error 0 = none ∧
    check_error 1 = some PyErr.entropyError ∧
    check_error 2 = some PyErr.invalidParameterError ∧
    check_error 3 = some PyErr.bufferTooSmallError ∧
    check_error 99 = some PyErr.unknownError ∧
    ∀ c : Int, c ≠ 0 → c ≠ 1 → c ≠ 2 → c ≠ 3 → c ≠ 99 →
      check_error c = some PyErr.unknownError := by
  refine ⟨rfl, rfl, rfl, rfl, rfl, ?_⟩
  intro c h0 h1 h2 h3 h99
  simp [check_error, ERROR_CODES, h0, h1, h2, h3, h99]

/-- C6 witness: the catch-all branch at the concrete code 7. -/
theorem C6_check_error_taxonomy_witness :
    (7 : Int) ≠ 0 ∧ check_error 7 = some PyErr.unknownError :=
  ⟨by decide, C6_check_error_taxonomy.2.2.2.2.2 7 (by decide) (by decide)
    (by decide) (by decide) (by decide)⟩

/-- C7: `Uuid.__str__` is a pure function of the 16 raw bytes: two `Uuid`
values holding the same bytes (even with different generators) render to
the same string. -/
theorem C7_str_deterministic (u1 u2 : Uuid) (h : u1.bytes = u2.bytes) :
    u1.str = u2.str := by
  simp [Uuid.str, h]

/-- C7 witness: same bytes under two distinct generator instances. -/
theorem C7_str_deterministic_witness :
    Uuid.bytes ⟨List.replicate 16 0, ⟨0⟩⟩ = Uuid.bytes ⟨List.replicate 16 0, ⟨1⟩⟩ ∧
    Uuid.str ⟨List.replicate 16 0, ⟨0⟩⟩ = Uuid.str ⟨List.replicate 16 0, ⟨1⟩⟩ :=
  ⟨rfl, C7_str_deterministic ⟨List.replicate 16 0, ⟨0⟩⟩
    ⟨List.replicate 16 0, ⟨1⟩⟩ rfl⟩

/-- C8 counterexample: under the concrete interleaving where both threads
pass the `is None` test before either assigns, two `UuidGenerator`
constructions happen and the two callers receive different instances —
the unsynchronized `get_generator` is not safe under concurrent first
use. -/
theorem C8_get_generator_race :
    (raceRun [true, false, true, true, false, false]).shared.created = 2 ∧
    (raceRun [true, false, true, true, false, false]).t1.ret ≠
      (raceRun [true, false, true, true, false, false]).t2.ret := by
  decide

/-- C8 amended: sequentially, `get_generator` is a lazily-initialized
singleton — the first call stores the freshly constructed instance and
every later call returns the stored instance without constructing
another; but no synchronization protects concurrent first use. -/
theorem C8_get_generator_lazy_singleton (fresh fresh2 : UuidGenerator) :
    get_generator none fresh = (fresh, some fresh) ∧
    (∀ g : UuidGenerator, get_generator (some g) fresh2 = (g, some g)) ∧
    (get_generator (get_generator none fresh).2 fresh2).1 = fresh :=
  ⟨rfl, fun _ => rfl, rfl⟩

/-- C9: comparing a `Uuid` with any non-`Uuid` value returns `False`
normally (no exception) and performs zero `uuid_compare` library calls. -/
theorem C9_eq_non_uuid (u : Uuid) (v : Nat) :
    u.eq (PyObj.other v) = Except.ok (false, 0) := rfl

/-- C10: `Uuid.__hash__` depends only on the raw 16-byte content: any two
`Uuid` values with equal bytes hash alike, whatever byte-string hash
function the interpreter uses and whatever their generators are. -/
theorem C10_hash_of_bytes (pyHash : List Nat → Int) (u1 u2 : Uuid)
    (h : u1.bytes = u2.bytes) :
    Uuid.hash pyHash u1 = Uuid.hash pyHash u2 := by
  simp [Uuid.hash, h]

/-- C10 witness: a concrete hash function and two concrete `Uuid` values
with the same bytes and different generators. -/
theorem C10_hash_of_bytes_witness :
    Uuid.bytes ⟨List.replicate 16 3, ⟨0⟩⟩ = Uuid.bytes ⟨List.replicate 16 3, ⟨5⟩⟩ ∧
    Uuid.hash (fun l => (l.length : Int)) ⟨List.replicate 16 3, ⟨0⟩⟩ =
      Uuid.hash (fun l => (l.length : Int)) ⟨List.replicate 16 3, ⟨5⟩⟩ :=
  ⟨rfl, C10_hash_of_bytes (fun l => (l.length : Int))
    ⟨List.replicate 16 3, ⟨0⟩⟩ ⟨List.replicate 16 3, ⟨5⟩⟩ rfl⟩

end UuidGen
